import Mathlib

/-!
Verification of the responsive-testing service (src/api) against its
natural-language specification.

The development shallowly embeds the parts of the code that the claims
are about:

* the issue / recommendation / screenshot dictionaries produced by the
  agent tools (`responsive_agent.py`), modelled as Lean structures with
  `Option` fields for keys that some producers omit;
* the pydantic `Issue` model (`models/models.py`), whose fields are
  always present, modelled as a structure with total fields;
* the two scoring functions (`main.calculate_scores` and
  `ResponsiveTestingAgent.calculate_scores`);
* the four static heuristic checks of `LayoutAnalysisTool.run` and the
  exception routing of that method;
* the vision stage (`VisionAnalysisTool.run`), with the external model
  and the filesystem abstracted into an environment;
* the suggestion stage (`SuggestionGeneratorTool.run`);
* the orchestrator (`process_analysis` in `main.py`), as an explicit
  state-passing function over an environment giving each stage outcome;
* the persistence layer (`DatabaseManager.save_analysis`,
  `DatabaseManager.get_screenshots`) and the `GET /api/screenshots/{id}`
  endpoint over an explicit four-table database state.

The nondeterministic `uuid.uuid4()` identifier attached to every issue,
recommendation and screenshot is omitted from the embedded records: no
claim mentions identifiers of individual issues, and every other field
is carried faithfully.  Timestamps are likewise omitted.
-/

/-! ## String helpers

Python's `in` operator on strings, `str.lower()`, and the regex
`font-size:\s*(\d+)px` used by `LayoutAnalysisTool`, modelled over
character lists so that everything reduces in the kernel. -/

/-- Tests whether `pat` is a prefix of `s` (character lists). -/
def strStartsWithChars : List Char → List Char → Bool
  | _, [] => true
  | [], _ :: _ => false
  | a :: as, b :: bs => a = b && strStartsWithChars as bs

/-- Tests whether `pat` occurs contiguously in `s` (character lists),
matching Python's `pat in s`. -/
def strContainsChars : List Char → List Char → Bool
  | [], pat => pat.isEmpty
  | c :: rest, pat => strStartsWithChars (c :: rest) pat || strContainsChars rest pat

/-- Python's `pat in s` substring test on strings. -/
def strContains (s pat : String) : Bool :=
  strContainsChars s.toList pat.toList

/-- Python's `str.lower()` (ASCII case folding; the keywords matched by
the code are ASCII apart from letters that both languages leave
unchanged). -/
def strLower (s : String) : String :=
  String.mk (s.toList.map Char.toLower)

/-- If `pat` is a prefix of `s`, returns the remainder of `s`. -/
def dropPrefixChars : List Char → List Char → Option (List Char)
  | s, [] => some s
  | [], _ :: _ => none
  | a :: as, b :: bs => if a = b then dropPrefixChars as bs else none

/-- Takes the leading run of decimal digits. -/
def takeDigits : List Char → List Char × List Char
  | [] => ([], [])
  | c :: rest =>
    if c.isDigit then
      let (ds, r) := takeDigits rest
      (c :: ds, r)
    else ([], c :: rest)

/-- Numeric value of a digit run (the regex group `(\d+)` fed to `int`). -/
def digitsToNat (ds : List Char) : Nat :=
  ds.foldl (fun n c => n * 10 + (c.toNat - 48)) 0

/-- Attempts to match the regex `font-size:\s*(\d+)px` at the head of the
character list, returning the captured number. -/
def matchFontSizeAt (s : List Char) : Option Nat :=
  match dropPrefixChars s ("font-size:".toList) with
  | none => none
  | some rest =>
    let rest2 := rest.dropWhile (fun c => c.isWhitespace)
    match takeDigits rest2 with
    | ([], _) => none
    | (ds, rest3) =>
      match dropPrefixChars rest3 (['p', 'x']) with
      | none => none
      | some _ => some (digitsToNat ds)

/-- `re.search(r"font-size:\s*(\d+)px", style)`: first position at which
the whole pattern matches. -/
def searchFontSize : List Char → Option Nat
  | [] => none
  | c :: rest =>
    match matchFontSizeAt (c :: rest) with
    | some n => some n
    | none => searchFontSize rest

/-! ## Data model -/

/-- An issue dictionary as built by the agent tools
(`responsive_agent.py`): a Python `dict` whose keys may be absent, read
back with `.get`.  The `id` key (a fresh uuid) is omitted; every other
key of the dictionaries built by the tools is carried. -/
structure IssueDict where
  type? : Option String := none
  severity? : Option Nat := none
  title? : Option String := none
  description? : Option String := none
  device? : Option String := none
  element? : Option String := none
  suggestion? : Option String := none
deriving DecidableEq

/-- The pydantic `Issue` model of `models/models.py`: all scoring-relevant
fields are mandatory attributes. -/
structure Issue where
  type : String
  severity : Nat
  title : String
  description : String
  device : String
  element : Option String := none
  suggestion : Option String := none
deriving DecidableEq

/-- Rendering of a pydantic `Issue` as the dictionary the agent tools
would read with `.get`: every mandatory attribute becomes a present key. -/
def Issue.toDict (i : Issue) : IssueDict :=
  { type? := some i.type, severity? := some i.severity, title? := some i.title,
    description? := some i.description, device? := some i.device,
    element? := i.element, suggestion? := i.suggestion }

/-- A recommendation dictionary as built by `SuggestionGeneratorTool.run`
(`id` uuid omitted). -/
structure RecDict where
  category : String
  title : String
  description : String
  code_example : Option String := none
  before : Option String := none
  after : Option String := none
  documentation : Option String := none
  priority : String
deriving DecidableEq

/-- A screenshot dictionary as built by `ScreenshotCaptureTool.run`
(uuid omitted). -/
structure ScreenshotDict where
  device : String
  resolution : String
  url : String
  full_page_url : String
deriving DecidableEq

/-- The four-field score dictionary returned by both scoring functions.
Python integers are modelled as `Int`. -/
structure Scores where
  mobile : Int
  tablet : Int
  desktop : Int
  overall : Int
deriving DecidableEq

/-! ## Scoring (`main.calculate_scores`, lines 251-285, and
`ResponsiveTestingAgent.calculate_scores`, lines 1006-1040) -/

/-- `calculate_scores` of `main.py` applied to a list of pydantic
`Issue` values, whose fields it reads as attributes (`i.type`,
`i.device`).  On such inputs no exception is raised and the `try` body
runs to completion. -/
def MainApp.calculate_scores (issues : List Issue) : Scores :=
  let critical_count := (issues.filter (fun i => i.type == "critical")).length
  let warning_count := (issues.filter (fun i => i.type == "warning")).length
  let info_count := (issues.filter (fun i => i.type == "info")).length
  let base_score : Int := 100
  let score_deduction : Int := critical_count * 15 + warning_count * 8 + info_count * 3
  let overall_score := max 0 (base_score - score_deduction)
  let mobile_score := max 0 (overall_score -
    ((issues.filter (fun i => i.device == "mobile" && i.type == "critical")).length : Int) * 10)
  let tablet_score := max 0 (overall_score -
    ((issues.filter (fun i => i.device == "tablet" && i.type == "critical")).length : Int) * 10)
  let desktop_score := max 0 (overall_score -
    ((issues.filter (fun i => i.device == "desktop" && i.type == "critical")).length : Int) * 10)
  { mobile := mobile_score, tablet := tablet_score,
    desktop := desktop_score, overall := overall_score }

/-- `calculate_scores` of `main.py` applied to the raw dictionary lists
the pipeline actually passes it (`process_analysis` line 225 hands it
`layout_issues + visual_issues`, plain dicts).  In Python, attribute
access `i.type` on a `dict` raises `AttributeError`; the function's own
`except` clause (lines 278-285) then returns the all-zero fallback.  The
empty list performs no attribute access, so the `try` body completes
with all counts zero and every score 100. -/
def MainApp.calculate_scores_on_dicts (issues : List IssueDict) : Scores :=
  match issues with
  | [] => { mobile := 100, tablet := 100, desktop := 100, overall := 100 }
  | _ :: _ => { mobile := 0, tablet := 0, desktop := 0, overall := 0 }

/-- `ResponsiveTestingAgent.calculate_scores`: same arithmetic, but the
fields are read with dictionary `.get`, so a missing key compares
unequal to every severity/device string instead of raising. -/
def ResponsiveTestingAgent.calculate_scores (issues : List IssueDict) : Scores :=
  let critical_count := (issues.filter (fun i => i.type? == some "critical")).length
  let warning_count := (issues.filter (fun i => i.type? == some "warning")).length
  let info_count := (issues.filter (fun i => i.type? == some "info")).length
  let base_score : Int := 100
  let score_deduction : Int := critical_count * 15 + warning_count * 8 + info_count * 3
  let overall_score := max 0 (base_score - score_deduction)
  let mobile_score := max 0 (overall_score -
    ((issues.filter (fun i => i.device? == some "mobile" && i.type? == some "critical")).length : Int) * 10)
  let tablet_score := max 0 (overall_score -
    ((issues.filter (fun i => i.device? == some "tablet" && i.type? == some "critical")).length : Int) * 10)
  let desktop_score := max 0 (overall_score -
    ((issues.filter (fun i => i.device? == some "desktop" && i.type? == some "critical")).length : Int) * 10)
  { mobile := mobile_score, tablet := tablet_score,
    desktop := desktop_score, overall := overall_score }

/-! ## Heuristic analysis stage (`LayoutAnalysisTool.run`, lines 122-224)

The BeautifulSoup parse of the fetched page is an external collaborator;
its query results are the fields of `Page`.  Stylesheet fetching
(including the `//` / relative URL resolution, which only changes the
URL fetched) is absorbed into each sheet's `css` field: `none` models a
fetch that raised (caught by the per-sheet `except: continue`) and
`some txt` the text of a successful response. -/

/-- One HTML element as seen by the checks: its `style` attribute
(`element.get("style", "")`) and its serialisation (`str(element)`). -/
structure Element where
  style : String
  serialized : String
deriving DecidableEq

/-- One `<link rel="stylesheet">` tag: its `href` attribute and the
outcome of fetching the resolved URL. -/
structure Sheet where
  href : Option String
  css : Option String
deriving DecidableEq

/-- The parsed page as queried by the four checks. -/
structure Page where
  hasViewportMeta : Bool
  stylesheets : List Sheet
  inlineStyledElements : List Element
  textElements : List Element

/-- A Python exception, by type name and message. -/
structure Exn where
  ty : String
  msg : String
deriving DecidableEq

/-- The string `type(e).__name__ + ": " + str(e)` recorded by the
orchestrator for an exception `e`. -/
def Exn.str (e : Exn) : String := e.ty ++ ": " ++ e.msg

/-- The issue appended by check 1 when no viewport meta tag is found. -/
def viewportMissingIssue : IssueDict :=
  { type? := some "critical", severity? := some 5,
    title? := some "Viewport Meta Tag Missing",
    description? := some "A tag meta viewport está ausente, o que pode causar problemas de escala em dispositivos móveis.",
    device? := some "mobile",
    element? := some "<meta name=\x27viewport\x27 content=\x27width=device-width, initial-scale=1.0\x27>",
    suggestion? := some "Adicione a tag meta viewport no head do seu HTML para garantir responsividade adequada." }

/-- The issue appended by check 2 when no stylesheet contains `@media`.
Note it carries no `element` key. -/
def noMediaQueriesIssue : IssueDict :=
  { type? := some "warning", severity? := some 3,
    title? := some "No Media Queries Found",
    description? := some "Nenhuma media query foi encontrada nos estilos, indicando falta de adaptação para diferentes tamanhos de tela.",
    device? := some "all",
    suggestion? := some "Use media queries para adaptar o layout para diferentes tamanhos de tela. Exemplo: @media (max-width: 768px) \x7b ... \x7d" }

/-- Check 1: the `soup.find` query for a viewport meta tag. -/
def check_viewport (p : Page) : List IssueDict :=
  if p.hasViewportMeta then [] else [viewportMissingIssue]

/-- One iteration of the stylesheet loop of check 2: skipped when the
`href` is missing or falsy, when the fetch raised, or when the fetched
text lacks `@media`. -/
def sheetHasMedia (s : Sheet) : Bool :=
  match s.href with
  | none => false
  | some h =>
    if h = "" then false
    else
      match s.css with
      | none => false
      | some txt => strContains txt "@media"

/-- The `has_media_queries` flag: the loop breaks at the first sheet
whose fetched text contains `@media`. -/
def hasMediaQueries (sheets : List Sheet) : Bool :=
  sheets.any sheetHasMedia

/-- Check 2: media queries in linked stylesheets. -/
def check_media_queries (p : Page) : List IssueDict :=
  if hasMediaQueries p.stylesheets then [] else [noMediaQueriesIssue]

/-- The issue appended by check 3 for one fixed-width element. -/
def fixedWidthIssue (el : Element) : IssueDict :=
  { type? := some "warning", severity? := some 3,
    title? := some "Fixed Width Elements",
    description? := some ("Elemento com largura fixa encontrado: " ++ el.style.take 100 ++ "..."),
    device? := some "mobile",
    element? := some (el.serialized.take 200),
    suggestion? := some "Use unidades relativas (%, vw, em, rem) ao invés de pixels fixos para larguras." }

/-- Check 3: inline styles declaring one of the two hardcoded desktop
widths. -/
def check_fixed_width (p : Page) : List IssueDict :=
  p.inlineStyledElements.flatMap fun el =>
    if strContains el.style "width:" && strContains el.style "px" then
      if strContains el.style "width: 1024px" || strContains el.style "width: 1200px" then
        [fixedWidthIssue el]
      else []
    else []

/-- The issue appended by check 4 for one small-font element. -/
def smallTextIssue (fontSize : Nat) (el : Element) : IssueDict :=
  { type? := some "warning", severity? := some 2,
    title? := some "Texto Muito Pequeno",
    description? := some ("Texto com tamanho de fonte pequeno (" ++ toString fontSize ++ "px) encontrado."),
    device? := some "mobile",
    element? := some (el.serialized.take 200),
    suggestion? := some "Use tamanhos de fonte mínimos de 14-16px para melhor legibilidade em dispositivos móveis." }

/-- Check 4: text-bearing elements with an inline font size below 12px. -/
def check_small_text (p : Page) : List IssueDict :=
  p.textElements.flatMap fun el =>
    if strContains el.style "font-size:" then
      match searchFontSize el.style.toList with
      | some fontSize => if fontSize < 12 then [smallTextIssue fontSize el] else []
      | none => []
    else []

/-- The issue list built by the `try` body of `LayoutAnalysisTool.run`
once the page is fetched and parsed: the four checks run in sequence,
each appending its issues. -/
def analyzeLayoutIssues (p : Page) : List IssueDict :=
  check_viewport p ++ check_media_queries p ++ check_fixed_width p ++ check_small_text p

/-- `LayoutAnalysisTool.run` with its concrete checks: the page fetch may
raise (`requests.get` at line 128); the single stage-level `except`
(lines 222-224) turns any exception into an empty result. -/
def LayoutAnalysisTool.run (fetch : Except Exn Page) : List IssueDict :=
  match fetch with
  | .error _ => []
  | .ok p => analyzeLayoutIssues p

/-- `LayoutAnalysisTool.run` with the four checks abstracted as
possibly-raising computations, exposing the method's exception routing:
everything from the fetch through the last check runs inside one `try`,
and the single `except` returns `[]`.  There is no per-check handler in
the source. -/
def LayoutAnalysisTool.runE (fetch : Except Exn Page)
    (c1 c2 c3 c4 : Page → Except Exn (List IssueDict)) : List IssueDict :=
  let body : Except Exn (List IssueDict) :=
    match fetch with
    | .error e => .error e
    | .ok p =>
      match c1 p with
      | .error e => .error e
      | .ok i1 =>
        match c2 p with
        | .error e => .error e
        | .ok i2 =>
          match c3 p with
          | .error e => .error e
          | .ok i3 =>
            match c4 p with
            | .error e => .error e
            | .ok i4 => .ok (i1 ++ i2 ++ i3 ++ i4)
  match body with
  | .ok issues => issues
  | .error _ => []

/-! ## Vision analysis stage (`VisionAnalysisTool.run`, lines 240-353)

The filesystem, the PIL image processing and the external vision model
are collaborators, abstracted into a `VisionEnv`.  Per-screenshot
control flow follows the source: a missing file skips the screenshot; a
raised exception anywhere in the per-screenshot `try` is caught and the
loop continues; an unconfigured model yields one informational
placeholder issue; an unparsable model response yields one informational
fallback issue; a parsed response yields one issue per entry. -/

/-- One structured finding parsed from the vision model's JSON response;
every key is read back with `.get` and a default. -/
structure VisionEntry where
  type? : Option String := none
  severity? : Option Nat := none
  title? : Option String := none
  description? : Option String := none
  element? : Option String := none
  suggestion? : Option String := none
deriving DecidableEq

/-- Environment for the vision stage.  `response s` is `none` when the
image processing or the model call raised (caught per screenshot),
`some none` when the model answered but `json.loads` failed, and
`some (some entries)` for a parsed response. -/
structure VisionEnv where
  modelAvailable : Bool
  fileExists : ScreenshotDict → Bool
  imageOk : ScreenshotDict → Bool
  response : ScreenshotDict → Option (Option (List VisionEntry))

/-- The placeholder issue emitted per screenshot when the model library
is not configured (`self.model is None`).  No `element` key. -/
def visionUnavailableIssue (s : ScreenshotDict) : IssueDict :=
  { type? := some "info", severity? := some 4,
    title? := some "Visão IA indisponível",
    description? := some "Biblioteca de IA não configurada. Configure GOOGLE_API_KEY e dependências.",
    device? := some s.device,
    suggestion? := some "Instale google-generativeai e defina GOOGLE_API_KEY." }

/-- The fallback issue emitted when the model's response is not valid
JSON.  No `element` key. -/
def visionParseFallbackIssue (s : ScreenshotDict) : IssueDict :=
  { type? := some "info", severity? := some 4,
    title? := some "Análise Visual Completa",
    description? := some ("Captura de tela em " ++ s.device ++ " analisada com IA."),
    device? := some s.device,
    suggestion? := some "Verifique manualmente o layout para problemas sutis." }

/-- One parsed vision finding turned into an issue, tagged with the
screenshot's device. -/
def visionEntryToIssue (s : ScreenshotDict) (e : VisionEntry) : IssueDict :=
  { type? := some (e.type?.getD "warning"),
    severity? := some (e.severity?.getD 3),
    title? := some (e.title?.getD "Problema Visual"),
    description? := some (e.description?.getD "Problema detectado pela IA"),
    device? := some s.device,
    element? := some (e.element?.getD ""),
    suggestion? := some (e.suggestion?.getD "Verifique o layout") }

/-- `VisionAnalysisTool.run`: the per-screenshot loop. -/
def VisionAnalysisTool.run (venv : VisionEnv) (screenshots : List ScreenshotDict) :
    List IssueDict :=
  screenshots.flatMap fun s =>
    if venv.fileExists s = false then []
    else if venv.imageOk s = false then []
    else if venv.modelAvailable = false then [visionUnavailableIssue s]
    else
      match venv.response s with
      | none => []
      | some none => [visionParseFallbackIssue s]
      | some (some entries) => entries.map (visionEntryToIssue s)

/-! ## Suggestion stage (`SuggestionGeneratorTool.run`, lines 415-595)

The keyword templates are reproduced verbatim (brace and quote
characters escaped).  The per-issue `try` of the source cannot raise in
this pure embedding, so `run` is a plain map over the issues. -/

/-- The code example of the viewport template. -/
def codeViewport : String :=
  "<meta name=\x22viewport\x22 content=\x22width=device-width, initial-scale=1.0\x22>"

/-- The code example of the media-query template. -/
def codeMediaQuery : String :=
  "/* Mobile first approach */\n.container \x7b\n  width: 100%;\n  padding: 1rem;\n\x7d\n\n/* Tablet */\n@media (min-width: 768px) \x7b\n  .container \x7b\n    max-width: 750px;\n    margin: 0 auto;\n  \x7d\n\x7d\n\n/* Desktop */\n@media (min-width: 1024px) \x7b\n  .container \x7b\n    max-width: 1200px;\n  \x7d\n\x7d"

/-- The code example of the font-size template. -/
def codeFontSize : String :=
  "/* Tamanhos de fonte responsivos */\nbody \x7b\n  font-size: 16px;\n\x7d\n\n@media (max-width: 768px) \x7b\n  body \x7b\n    font-size: 14px;\n  \x7d\n  \n  h1 \x7b font-size: 1.5rem; \x7d\n  h2 \x7b font-size: 1.25rem; \x7d\n  p \x7b font-size: 1rem; \x7d\n\x7d"

/-- The code example of the fixed-width template. -/
def codeWidth : String :=
  "/* Unidades relativas vs fixas */\n/* ❌ Evite */\n.container \x7b\n  width: 1024px;\n\x7d\n\n/* ✅ Prefira */\n.container \x7b\n  width: 100%;\n  max-width: 1024px;\n  padding: 0 1rem;\n\x7d"

/-- The code example of the touch-target template. -/
def codeTouch : String :=
  "/* Áreas de toque adequadas */\n.button \x7b\n  min-width: 44px;\n  min-height: 44px;\n  padding: 12px 24px;\n  font-size: 16px; /* Prevents zoom on iOS */\n\x7d"

/-- The code example of the image template. -/
def codeImage : String :=
  "/* Imagens responsivas */\nimg \x7b\n  max-width: 100%;\n  height: auto;\n  display: block;\n\x7d\n\n/* Imagens adaptativas */\n.responsive-image \x7b\n  width: 100%;\n  height: auto;\n  object-fit: cover;\n\x7d"

/-- The code example of the horizontal-scroll template. -/
def codeScroll : String :=
  "/* Prevenir scroll horizontal */\nhtml, body \x7b\n  max-width: 100%;\n  overflow-x: hidden;\n\x7d\n\n/* Verificar elementos largos */\n* \x7b\n  box-sizing: border-box;\n\x7d"

/-- The code example of the generic fallback template. -/
def codeGeneric : String :=
  "/* Exemplo genérico de correção */\n.element \x7b\n  /* Adicione estilos responsivos aqui */\n\x7d"

/-- The template fields selected by the keyword chain: category, code
example, before, after, documentation.  The `priority` values the chain
also assigns are dead stores, overwritten below. -/
structure Template where
  category : String
  code_example : Option String
  before : Option String
  after : Option String
  documentation : Option String

/-- The case-insensitive keyword chain over the issue's title
(`elif` ladder, first match wins, generic fallback). -/
def selectTemplate (titleLower : String) : Template :=
  if strContains titleLower "viewport" then
    { category := "html", code_example := some codeViewport,
      before := some "Sem viewport meta tag", after := some codeViewport,
      documentation := some "https://developer.mozilla.org/pt-BR/docs/Web/HTML/Viewport_meta_tag" }
  else if strContains titleLower "media query" then
    { category := "css", code_example := some codeMediaQuery,
      before := some "Estilos sem media queries",
      after := some "Estilos com media queries responsivas",
      documentation := some "https://developer.mozilla.org/pt-BR/docs/Web/CSS/Media_Queries/Using_media_queries" }
  else if strContains titleLower "texto" || strContains titleLower "font" then
    { category := "css", code_example := some codeFontSize,
      before := some "Fontes fixas muito pequenas",
      after := some "Fontes relativas e adaptativas",
      documentation := some "https://developer.mozilla.org/pt-BR/docs/Web/CSS/font-size" }
  else if strContains titleLower "largura" || strContains titleLower "width" then
    { category := "css", code_example := some codeWidth,
      before := some "Larguras fixas em pixels",
      after := some "Larguras relativas com max-width",
      documentation := some "https://developer.mozilla.org/pt-BR/docs/Web/CSS/width" }
  else if strContains titleLower "touch" || strContains titleLower "botão" then
    { category := "css", code_example := some codeTouch,
      before := some "Botões pequenos (< 44px)",
      after := some "Botões com tamanho mínimo adequado",
      documentation := some "https://developer.mozilla.org/pt-BR/docs/Web/CSS/touch-action" }
  else if strContains titleLower "imagem" || strContains titleLower "image" then
    { category := "css", code_example := some codeImage,
      before := some "Imagens com largura fixa",
      after := some "Imagens responsivas com max-width: 100%",
      documentation := some "https://developer.mozilla.org/pt-BR/docs/Web/CSS/object-fit" }
  else if strContains titleLower "scroll" || strContains titleLower "rolagem" then
    { category := "css", code_example := some codeScroll,
      before := some "Scroll horizontal indesejado",
      after := some "Layout sem scroll horizontal",
      documentation := some "https://developer.mozilla.org/pt-BR/docs/Web/CSS/overflow" }
  else
    { category := "css", code_example := some codeGeneric,
      before := none, after := none, documentation := none }

/-- The severity-to-priority bands applied after template selection
(lines 565-572), overwriting the template's priority. -/
def severityToPriority (severity : Nat) : String :=
  if severity ≤ 2 then "high" else if severity ≤ 4 then "medium" else "low"

/-- The recommendation generated for one issue. -/
def genRecommendation (issue : IssueDict) : RecDict :=
  let tmpl := selectTemplate (strLower (issue.title?.getD ""))
  { category := tmpl.category,
    title := "Correção: " ++ issue.title?.getD "Problema",
    description := "Solução para: " ++ issue.description?.getD "Problema detectado",
    code_example := tmpl.code_example,
    before := tmpl.before,
    after := tmpl.after,
    documentation := tmpl.documentation,
    priority := severityToPriority (issue.severity?.getD 3) }

/-- `SuggestionGeneratorTool.run`: one recommendation per issue, in issue
order. -/
def SuggestionGeneratorTool.run (issues : List IssueDict) : List RecDict :=
  issues.map genRecommendation

/-! ## Job orchestrator (`process_analysis` in `main.py`, lines 186-249)

The orchestrator is embedded as an explicit state-passing function over
an environment giving each stage call's outcome (`Except` models a
Python call that returns or raises).  Besides the final in-memory job
record it returns the sequence of progress values written, the list of
stages that were entered, and the persistence calls made, so that the
temporal claims can be stated over one run. -/

/-- The in-memory `AnalysisStatus` record for one job (identifier, URL
and timestamps omitted: they are never read by the orchestrator). -/
structure JobState where
  status : String
  progress : Nat
  message : String
  screenshots : List ScreenshotDict
  issues : List IssueDict
  recommendations : List RecDict
  score : Scores
  summary : String
  error : Option String
deriving DecidableEq

/-- The record created by `start_analysis` before the background task is
dispatched: status `pending`, progress 0, empty results, the pydantic
default all-zero score. -/
def initState : JobState :=
  { status := "pending", progress := 0, message := "Iniciando análise...",
    screenshots := [], issues := [], recommendations := [],
    score := { mobile := 0, tablet := 0, desktop := 0, overall := 0 },
    summary := "", error := none }

/-- The `report_data` dictionary returned by `create_report`: on its
internal error path the dictionary has no `summary` key, read back with
`.get("summary", "")`. -/
structure ReportData where
  report_url : Option String := none
  summary : Option String := none

/-- One stage's worth of call outcomes for a run of the orchestrator:
each field is the result of the corresponding `await agent.…` call,
raising (`error`) or returning (`ok`). -/
structure Env where
  capture : Except Exn (List ScreenshotDict)
  layout : Except Exn (List IssueDict)
  vision : List ScreenshotDict → Except Exn (List IssueDict)
  suggest : List IssueDict → Except Exn (List RecDict)
  report : Except Exn ReportData

/-- The arguments `save_analysis_to_db` forwards to the persistence
layer on the success path. -/
structure SaveCall where
  status : String
  screenshots : List ScreenshotDict
  issues : List IssueDict
  recommendations : List RecDict
  score : Scores
  summary : String
deriving DecidableEq

/-- Everything observable about one run of `process_analysis`: the final
in-memory record, the progress values written in order, the stages
entered, and the persistence calls made. -/
structure RunResult where
  final : JobState
  writes : List Nat
  ran : List String
  saves : List SaveCall

/-- The orchestrator's stage sequence; `save` is the final persistence
write. -/
def stageList : List String :=
  ["capture", "layout", "vision", "suggestions", "report", "save"]

/-- The outer `except` handler of `process_analysis` (lines 242-249):
status becomes `error`, and the exception's type and message are
recorded into both `message` and `error`.  Progress is not touched. -/
def errorState (st : JobState) (e : Exn) : JobState :=
  { st with status := "error",
            message := "Erro na análise: " ++ e.str,
            error := some e.str }

/-- The body of `process_analysis` from step 2 (layout analysis) on,
given the state, screenshots and progress writes left by the capture
step. -/
def processAfterCapture (env : Env) (st : JobState)
    (shots : List ScreenshotDict) (w : List Nat) : RunResult :=
  match env.layout with
  | .error e => ⟨errorState st e, w, ["capture", "layout"], []⟩
  | .ok layout_issues =>
    let st3 := { st with progress := 50, message := "Analisando visual..." }
    match env.vision shots with
    | .error e => ⟨errorState st3 e, w ++ [50], ["capture", "layout", "vision"], []⟩
    | .ok visual_issues =>
      let st4 := { st3 with progress := 75, message := "Gerando recomendações..." }
      let all_issues := layout_issues ++ visual_issues
      match env.suggest all_issues with
      | .error e =>
        ⟨errorState st4 e, w ++ [50, 75], ["capture", "layout", "vision", "suggestions"], []⟩
      | .ok recommendations =>
        match env.report with
        | .error e =>
          ⟨errorState st4 e, w ++ [50, 75],
            ["capture", "layout", "vision", "suggestions", "report"], []⟩
        | .ok report_data =>
          let scores := MainApp.calculate_scores_on_dicts all_issues
          let st5 := { st4 with status := "completed", progress := 100,
                                message := "Análise concluída",
                                screenshots := shots, issues := all_issues,
                                recommendations := recommendations, score := scores,
                                summary := report_data.summary.getD "" }
          ⟨st5, w ++ [50, 75, 100], stageList,
            [⟨st5.status, shots, all_issues, recommendations, scores, st5.summary⟩]⟩

/-- `process_analysis`: status to `analyzing` and progress to 10, then
the capture step with its own inner `try` (an exception is caught,
screenshots become `[]` and progress 20 instead of 25), then the rest of
the pipeline. -/
def process_analysis (env : Env) : RunResult :=
  let st1 := { initState with status := "analyzing", progress := 10,
                              message := "Capturando screenshots..." }
  match env.capture with
  | .error e =>
    let st2 := { st1 with message := "Falha ao capturar screenshots: " ++ e.str,
                          progress := 20 }
    processAfterCapture env st2 [] [10, 20]
  | .ok shots =>
    let st2 := { st1 with progress := 25, message := "Analisando layout..." }
    processAfterCapture env st2 shots [10, 25]

/-- The progress values observable for a job over time: the 0 written at
creation by `start_analysis`, then the orchestrator's writes in order. -/
def progressTrace (env : Env) : List Nat :=
  0 :: (process_analysis env).writes

/-! ## Persistence layer (`database.py`) and the screenshots endpoint

The four SQLAlchemy tables are embedded as lists of rows; scoped
sessions and timestamps are collaborators and omitted.  `save_analysis`
updates the first matching `analyses` row or inserts a new one;
`get_screenshots` filters the `screenshots` table by job identifier. -/

/-- One row of the `analyses` table (timestamps and `progress`/`message`
columns omitted from updates exactly as in the source: `save_analysis`
never writes them). -/
structure AnalysisRow where
  id : String
  url : String
  status : String
  screenshots : Option (List ScreenshotDict) := none
  issues : Option (List IssueDict) := none
  recommendations : Option (List RecDict) := none
  score : Option Scores := none
  summary : Option String := none
  error : Option String := none
deriving DecidableEq

/-- One row of the `screenshots` table. -/
structure ScreenshotRow where
  id : String
  analysis_id : String
  device : String
  resolution : String
  filename : String
  full_page_filename : String
deriving DecidableEq

/-- One row of the `issues` table. -/
structure IssueRow where
  id : String
  analysis_id : String
  type : String
  severity : Nat
  title : String
  description : String
  device : String
  element : Option String := none
  suggestion : Option String := none
deriving DecidableEq

/-- One row of the `recommendations` table. -/
structure RecRow where
  id : String
  analysis_id : String
  category : String
  title : String
  description : String
  code_example : Option String := none
  before : Option String := none
  after : Option String := none
  documentation : Option String := none
  priority : String
deriving DecidableEq

/-- The database state: the four tables created by
`Base.metadata.create_all`. -/
structure DB where
  analyses : List AnalysisRow
  screenshots : List ScreenshotRow
  issues : List IssueRow
  recommendations : List RecRow
deriving DecidableEq

/-- Applies `f` to the first element satisfying `p` (SQLAlchemy's
`.first()` row followed by attribute mutation and commit). -/
def updateFirst {α : Type} (l : List α) (p : α → Bool) (f : α → α) : List α :=
  match l with
  | [] => []
  | a :: rest => if p a then f a :: rest else a :: updateFirst rest p f

/-- `DatabaseManager.save_analysis` (lines 114-166): update the existing
`analyses` row or insert a new one; the other three tables are never
touched. -/
def DatabaseManager.save_analysis (db : DB) (analysis_id url status : String)
    (screenshots : Option (List ScreenshotDict)) (issues : Option (List IssueDict))
    (recommendations : Option (List RecDict)) (score : Option Scores)
    (summary : Option String) (error : Option String) : DB :=
  match db.analyses.find? (fun a => a.id == analysis_id) with
  | some _ =>
    let upd := fun (a : AnalysisRow) =>
      { a with status := status, url := url, screenshots := screenshots,
               issues := issues, recommendations := recommendations,
               score := score, summary := summary, error := error }
    { db with analyses := updateFirst db.analyses (fun a => a.id == analysis_id) upd }
  | none =>
    { db with analyses := db.analyses ++
        [{ id := analysis_id, url := url, status := status, screenshots := screenshots,
           issues := issues, recommendations := recommendations, score := score,
           summary := summary, error := error }] }

/-- `DatabaseManager.get_analysis` (lines 168-178). -/
def DatabaseManager.get_analysis (db : DB) (analysis_id : String) : Option AnalysisRow :=
  db.analyses.find? (fun a => a.id == analysis_id)

/-- `DatabaseManager.get_screenshots` (lines 222-232): all rows of the
`screenshots` table for this job. -/
def DatabaseManager.get_screenshots (db : DB) (analysis_id : String) : List ScreenshotRow :=
  db.screenshots.filter (fun s => s.analysis_id == analysis_id)

/-- One entry of the response of `GET /api/screenshots/\x7bid\x7d`. -/
structure ScreenshotUrlEntry where
  id : String
  device : String
  resolution : String
  url : String
  full_page_url : String
deriving DecidableEq

/-- The `GET /api/screenshots/\x7bid\x7d` endpoint (`main.py` lines
137-165): 404 when the job is unknown to the database, otherwise the URL
descriptors of the rows of the `screenshots` table. -/
def get_screenshots_endpoint (db : DB) (analysis_id : String) :
    Except Nat (List ScreenshotUrlEntry) :=
  match DatabaseManager.get_analysis db analysis_id with
  | none => .error 404
  | some _ => .ok ((DatabaseManager.get_screenshots db analysis_id).map fun s =>
      { id := s.id, device := s.device, resolution := s.resolution,
        url := "/screenshots/" ++ s.filename,
        full_page_url := "/screenshots/" ++ s.full_page_filename })

/-! ## Theorems -/

/-- The concrete checks never raise, so `LayoutAnalysisTool.run` is
`runE` at the pure checks. -/
theorem layout_run_eq_runE (fetch : Except Exn Page) :
    LayoutAnalysisTool.run fetch =
      LayoutAnalysisTool.runE fetch
        (fun p => .ok (check_viewport p)) (fun p => .ok (check_media_queries p))
        (fun p => .ok (check_fixed_width p)) (fun p => .ok (check_small_text p)) := by
  cases fetch <;> rfl

/-- Unfolding lemma: the overall score of `main.calculate_scores`. -/
theorem MainApp.calculate_scores_overall (issues : List Issue) :
    (MainApp.calculate_scores issues).overall =
      max 0 (100 - (((issues.filter (fun i => i.type == "critical")).length : Int) * 15
                  + ((issues.filter (fun i => i.type == "warning")).length : Int) * 8
                  + ((issues.filter (fun i => i.type == "info")).length : Int) * 3)) := rfl

/-- Unfolding lemma: the mobile score of `main.calculate_scores`. -/
theorem MainApp.calculate_scores_mobile (issues : List Issue) :
    (MainApp.calculate_scores issues).mobile =
      max 0 ((MainApp.calculate_scores issues).overall -
        ((issues.filter (fun i => i.device == "mobile" && i.type == "critical")).length : Int) * 10) := rfl

/-- Unfolding lemma: the tablet score of `main.calculate_scores`. -/
theorem MainApp.calculate_scores_tablet (issues : List Issue) :
    (MainApp.calculate_scores issues).tablet =
      max 0 ((MainApp.calculate_scores issues).overall -
        ((issues.filter (fun i => i.device == "tablet" && i.type == "critical")).length : Int) * 10) := rfl

/-- Unfolding lemma: the desktop score of `main.calculate_scores`. -/
theorem MainApp.calculate_scores_desktop (issues : List Issue) :
    (MainApp.calculate_scores issues).desktop =
      max 0 ((MainApp.calculate_scores issues).overall -
        ((issues.filter (fun i => i.device == "desktop" && i.type == "critical")).length : Int) * 10) := rfl

/-- C1.  For every issue list the scoring function returns
`overall = max(0, 100 - (15 * critical + 8 * warning + 3 * info))`; on
the empty issue list all four scores are 100; and every returned score
lies in `[0, 100]`. -/
theorem C1_scoring_formula :
    (∀ issues : List Issue,
      (MainApp.calculate_scores issues).overall =
        max 0 (100 - (15 * ((issues.filter (fun i => i.type == "critical")).length : Int)
                    + 8 * ((issues.filter (fun i => i.type == "warning")).length : Int)
                    + 3 * ((issues.filter (fun i => i.type == "info")).length : Int)))) ∧
    (MainApp.calculate_scores [] =
      { mobile := 100, tablet := 100, desktop := 100, overall := 100 }) ∧
    (∀ issues : List Issue,
      (0 ≤ (MainApp.calculate_scores issues).overall ∧
        (MainApp.calculate_scores issues).overall ≤ 100) ∧
      (0 ≤ (MainApp.calculate_scores issues).mobile ∧
        (MainApp.calculate_scores issues).mobile ≤ 100) ∧
      (0 ≤ (MainApp.calculate_scores issues).tablet ∧
        (MainApp.calculate_scores issues).tablet ≤ 100) ∧
      (0 ≤ (MainApp.calculate_scores issues).desktop ∧
        (MainApp.calculate_scores issues).desktop ≤ 100)) := by
  refine ⟨?_, by decide, ?_⟩
  · intro issues
    rw [MainApp.calculate_scores_overall]
    congr 1
    ring
  · intro issues
    rw [MainApp.calculate_scores_mobile, MainApp.calculate_scores_tablet,
        MainApp.calculate_scores_desktop, MainApp.calculate_scores_overall]
    omega

/-- The concrete page of end-to-end scenario 1: no viewport meta tag, no
linked stylesheets, no inline styles (hence no styled and no text-styled
elements). -/
def noResponsivePage : Page :=
  { hasViewportMeta := false, stylesheets := [],
    inlineStyledElements := [], textElements := [] }

/-- C2 counterexample.  The heuristic stage does yield exactly the
critical missing-viewport issue and the warning no-media-queries issue,
but the scoring code the scenario cites — `main.calculate_scores`,
applied to the stage's dictionary output as the pipeline wires it —
returns overall 0, not 77: attribute access on the dicts raises and the
function's fallback returns all zeros. -/
theorem C2_counterexample_main_scorer_zero :
    LayoutAnalysisTool.run (.ok noResponsivePage) =
      [viewportMissingIssue, noMediaQueriesIssue] ∧
    MainApp.calculate_scores_on_dicts (LayoutAnalysisTool.run (.ok noResponsivePage)) =
      { mobile := 0, tablet := 0, desktop := 0, overall := 0 } ∧
    (MainApp.calculate_scores_on_dicts
      (LayoutAnalysisTool.run (.ok noResponsivePage))).overall ≠ 77 := by
  refine ⟨rfl, rfl, by decide⟩

/-- C2 amended.  For a page with no viewport meta tag, no linked
stylesheets and no inline styles, the heuristic stage yields exactly the
critical missing-viewport issue followed by the warning
no-media-queries issue; the scoring formula on those two issues gives
overall `max(0, 100 - 15 - 8) = 77` as computed by the dict-reading
scorer `ResponsiveTestingAgent.calculate_scores`, while the
`main.calculate_scores` the pipeline actually invokes on the stage's
dictionary output returns overall 0 through its exception fallback. -/
theorem C2_amended_heuristics_score :
    LayoutAnalysisTool.run (.ok noResponsivePage) =
      [viewportMissingIssue, noMediaQueriesIssue] ∧
    viewportMissingIssue.type? = some "critical" ∧
    viewportMissingIssue.severity? = some 5 ∧
    noMediaQueriesIssue.type? = some "warning" ∧
    noMediaQueriesIssue.severity? = some 3 ∧
    (ResponsiveTestingAgent.calculate_scores
      (LayoutAnalysisTool.run (.ok noResponsivePage))).overall = 77 ∧
    MainApp.calculate_scores_on_dicts (LayoutAnalysisTool.run (.ok noResponsivePage)) =
      { mobile := 0, tablet := 0, desktop := 0, overall := 0 } := by
  refine ⟨rfl, rfl, rfl, rfl, rfl, by decide, rfl⟩

/-- C4.  The generated recommendation's priority is derived solely from
the source issue's severity — severity at most 2 gives `high`, 3 or 4
gives `medium`, 5 gives `low` — overriding the priority of the matched
keyword template; and the issue titled "Viewport Meta Tag Missing" with
severity 5 yields a recommendation of category `html` whose priority is
the band for severity 5, namely `low`. -/
theorem C4_priority_from_severity :
    (∀ issues : List IssueDict,
      (SuggestionGeneratorTool.run issues).map (fun r => r.priority) =
        issues.map (fun i => severityToPriority (i.severity?.getD 3))) ∧
    (∀ issue : IssueDict,
      (genRecommendation issue).priority = severityToPriority (issue.severity?.getD 3)) ∧
    (∀ severity : Nat, severityToPriority severity =
      if severity ≤ 2 then "high" else if severity ≤ 4 then "medium" else "low") ∧
    viewportMissingIssue.title? = some "Viewport Meta Tag Missing" ∧
    viewportMissingIssue.severity? = some 5 ∧
    (genRecommendation viewportMissingIssue).category = "html" ∧
    (genRecommendation viewportMissingIssue).priority = "low" := by
  refine ⟨?_, fun issue => rfl, fun severity => rfl, rfl, rfl, by decide, by decide⟩
  intro issues
  simp only [SuggestionGeneratorTool.run, List.map_map]
  rfl

/-- A concrete exception for counterexamples. -/
def exnBoom : Exn := { ty := "RuntimeError", msg := "boom" }

/-- C3 counterexample.  With the first check producing the viewport
issue and the third check raising, `LayoutAnalysisTool.run` returns the
empty list: the sibling's issue is discarded, contradicting the claim
that a throwing check leaves the other checks' issues in the result. -/
theorem C3_counterexample_check_isolation :
    LayoutAnalysisTool.runE (.ok noResponsivePage)
        (fun _ => .ok [viewportMissingIssue]) (fun _ => .ok [])
        (fun _ => .error exnBoom) (fun _ => .ok []) = [] ∧
    LayoutAnalysisTool.runE (.ok noResponsivePage)
        (fun _ => .ok [viewportMissingIssue]) (fun _ => .ok [])
        (fun _ => .error exnBoom) (fun _ => .ok []) ≠ [viewportMissingIssue] := by
  refine ⟨rfl, by decide⟩

/-- A sheet whose fetched `css` is `none` contributes nothing to the
media-query scan. -/
theorem sheetHasMedia_css_none (href : Option String) :
    sheetHasMedia { href := href, css := none } = false := by
  cases href with
  | none => rfl
  | some h =>
    simp only [sheetHasMedia]
    split <;> rfl

/-- C3 amended.  The heuristic stage has no per-check isolation: if any
of the four checks raises, the single stage-level handler catches it and
the whole stage returns the empty list, discarding the issues of every
other check.  The only isolation present is inside check 2, where an
individual stylesheet whose fetch failed is skipped without affecting
the scan of the remaining sheets. -/
theorem C3_amended_stage_catch :
    (∀ (p : Page) (c1 c2 c3 c4 : Page → Except Exn (List IssueDict)) (e : Exn),
        (c1 p = .error e ∨ c2 p = .error e ∨ c3 p = .error e ∨ c4 p = .error e) →
        LayoutAnalysisTool.runE (.ok p) c1 c2 c3 c4 = []) ∧
    (∀ (s : Sheet) (rest : List Sheet), s.css = none →
        hasMediaQueries (s :: rest) = hasMediaQueries rest) := by
  constructor
  · intro p c1 c2 c3 c4 e h
    cases hc1 : c1 p <;> cases hc2 : c2 p <;> cases hc3 : c3 p <;> cases hc4 : c4 p <;>
      simp_all [LayoutAnalysisTool.runE, Except.bind]
  · intro s rest h
    obtain ⟨href, css⟩ := s
    cases h
    simp [hasMediaQueries, sheetHasMedia_css_none]

/-- Witness for the amended C3 at concrete inputs. -/
theorem C3_amended_stage_catch_witness :
    LayoutAnalysisTool.runE (.ok noResponsivePage)
      (fun _ => .error exnBoom) (fun _ => .ok []) (fun _ => .ok []) (fun _ => .ok []) = [] ∧
    hasMediaQueries [{ href := some "style.css", css := none }] = hasMediaQueries [] :=
  ⟨C3_amended_stage_catch.1 noResponsivePage _ _ _ _ exnBoom (Or.inl rfl),
   C3_amended_stage_catch.2 { href := some "style.css", css := none } [] rfl⟩

/-- Five critical mobile issues: the list on which the claimed
"steps of exactly 10" relation between the overall and the mobile score
fails, because the mobile score clamps at 0. -/
def fiveCriticalMobile : List Issue :=
  List.replicate 5
    { type := "critical", severity := 1, title := "Overlap",
      description := "Elementos sobrepostos", device := "mobile" }

/-- C5 counterexample.  For five critical mobile issues the overall
score is 25 and the mobile score is 0, a difference of 25, while the
claim requires a difference of exactly 10 per critical mobile issue,
namely 50. -/
theorem C5_counterexample_device_step :
    (MainApp.calculate_scores fiveCriticalMobile).overall = 25 ∧
    (MainApp.calculate_scores fiveCriticalMobile).mobile = 0 ∧
    (fiveCriticalMobile.filter
      (fun i => i.device == "mobile" && i.type == "critical")).length = 5 ∧
    (MainApp.calculate_scores fiveCriticalMobile).overall -
        (MainApp.calculate_scores fiveCriticalMobile).mobile ≠
      10 * ((fiveCriticalMobile.filter
        (fun i => i.device == "mobile" && i.type == "critical")).length : Int) := by
  refine ⟨by decide, by decide, by decide, by decide⟩

/-- The number of critical issues of an issue list on a given device, as
an integer. -/
def deviceCriticalCount (issues : List Issue) (device : String) : Int :=
  ((issues.filter (fun i => i.device == device && i.type == "critical")).length : Int)

/-- C5 amended.  Each device score is at most the overall score and
equals `max(0, overall - 10 * count)` where `count` is the number of
critical issues on that device; the difference is exactly 10 per such
issue whenever the deduction does not exceed the overall score, the
clamp at 0 breaking the exact-step relation otherwise. -/
theorem C5_amended_device_score (issues : List Issue) :
    ((MainApp.calculate_scores issues).mobile ≤ (MainApp.calculate_scores issues).overall ∧
     (MainApp.calculate_scores issues).mobile =
       max 0 ((MainApp.calculate_scores issues).overall -
         10 * deviceCriticalCount issues "mobile") ∧
     (10 * deviceCriticalCount issues "mobile" ≤ (MainApp.calculate_scores issues).overall →
       (MainApp.calculate_scores issues).overall - (MainApp.calculate_scores issues).mobile =
         10 * deviceCriticalCount issues "mobile")) ∧
    ((MainApp.calculate_scores issues).tablet ≤ (MainApp.calculate_scores issues).overall ∧
     (MainApp.calculate_scores issues).tablet =
       max 0 ((MainApp.calculate_scores issues).overall -
         10 * deviceCriticalCount issues "tablet") ∧
     (10 * deviceCriticalCount issues "tablet" ≤ (MainApp.calculate_scores issues).overall →
       (MainApp.calculate_scores issues).overall - (MainApp.calculate_scores issues).tablet =
         10 * deviceCriticalCount issues "tablet")) ∧
    ((MainApp.calculate_scores issues).desktop ≤ (MainApp.calculate_scores issues).overall ∧
     (MainApp.calculate_scores issues).desktop =
       max 0 ((MainApp.calculate_scores issues).overall -
         10 * deviceCriticalCount issues "desktop") ∧
     (10 * deviceCriticalCount issues "desktop" ≤ (MainApp.calculate_scores issues).overall →
       (MainApp.calculate_scores issues).overall - (MainApp.calculate_scores issues).desktop =
         10 * deviceCriticalCount issues "desktop")) := by
  rw [MainApp.calculate_scores_mobile, MainApp.calculate_scores_tablet,
      MainApp.calculate_scores_desktop, MainApp.calculate_scores_overall]
  simp only [deviceCriticalCount]
  omega

/-- One critical mobile issue, for the amended C5 witness. -/
def oneCriticalMobile : List Issue :=
  [{ type := "critical", severity := 1, title := "Overlap",
     description := "Elementos sobrepostos", device := "mobile" }]

/-- Witness for the amended C5 at a concrete input where the deduction
does not clamp. -/
theorem C5_amended_device_score_witness :
    (MainApp.calculate_scores oneCriticalMobile).mobile ≤
        (MainApp.calculate_scores oneCriticalMobile).overall ∧
    10 * deviceCriticalCount oneCriticalMobile "mobile" ≤
        (MainApp.calculate_scores oneCriticalMobile).overall ∧
    (MainApp.calculate_scores oneCriticalMobile).overall -
        (MainApp.calculate_scores oneCriticalMobile).mobile =
      10 * deviceCriticalCount oneCriticalMobile "mobile" :=
  ⟨(C5_amended_device_score oneCriticalMobile).1.1, by decide,
   (C5_amended_device_score oneCriticalMobile).1.2.2 (by decide)⟩

/-- In the core `Option` `BEq` instance, comparing `some` values
compares the payloads. -/
theorem option_some_beq {α : Type} [BEq α] (a b : α) :
    (some a == some b) = (a == b) := rfl

/-- Filtering the dictionary rendering of a record issue list on a
`type` key value agrees with filtering the records on the `type`
attribute. -/
theorem map_toDict_filter_type (issues : List Issue) (t : String) :
    ((issues.map Issue.toDict).filter (fun i => i.type? == some t)).length =
      (issues.filter (fun i => i.type == t)).length := by
  rw [List.filter_map, List.length_map]
  rfl

/-- Filtering the dictionary rendering on `device` and `type` key values
agrees with filtering the records on those attributes. -/
theorem map_toDict_filter_device_type (issues : List Issue) (d t : String) :
    ((issues.map Issue.toDict).filter
        (fun i => i.device? == some d && i.type? == some t)).length =
      (issues.filter (fun i => i.device == d && i.type == t)).length := by
  rw [List.filter_map, List.length_map]
  rfl

/-- C9 counterexample.  Fed the very dictionary list the pipeline passes
to scoring, the two implementations disagree: attribute access on a
dictionary raises inside `main.calculate_scores`, whose fallback returns
all zeros, while the agent version computes the formula. -/
theorem C9_counterexample_scorer_divergence :
    MainApp.calculate_scores_on_dicts [viewportMissingIssue] =
      { mobile := 0, tablet := 0, desktop := 0, overall := 0 } ∧
    ResponsiveTestingAgent.calculate_scores [viewportMissingIssue] =
      { mobile := 75, tablet := 85, desktop := 85, overall := 85 } ∧
    MainApp.calculate_scores_on_dicts [viewportMissingIssue] ≠
      ResponsiveTestingAgent.calculate_scores [viewportMissingIssue] := by
  refine ⟨rfl, by decide, by decide⟩

/-- C9 amended.  On attribute-bearing `Issue` records the two
implementations agree: for every record issue list,
`main.calculate_scores` equals the agent's scorer applied to the
dictionary rendering of the same list.  On the raw dictionary lists the
pipeline actually passes, `main.calculate_scores` instead hits an
`AttributeError` and returns its all-zero fallback whenever the list is
nonempty (see the counterexample). -/
theorem C9_amended_record_dict_agreement (issues : List Issue) :
    MainApp.calculate_scores issues =
      ResponsiveTestingAgent.calculate_scores (issues.map Issue.toDict) := by
  simp only [MainApp.calculate_scores, ResponsiveTestingAgent.calculate_scores,
    map_toDict_filter_type, map_toDict_filter_device_type]

/-- C6.  For every run of the orchestrator, the progress values written
over time form a non-decreasing sequence — a prefix of
`0, 10, 25, 50, 75, 100` or of `0, 10, 20, 50, 75, 100` (20 when
capture failed) — progress reaches 100 exactly when the job terminates
with status `completed`, and otherwise the run ends with status `error`
without progress ever decreasing. -/
theorem C6_progress_monotonicity (env : Env) :
    List.Chain' (· ≤ ·) (progressTrace env) ∧
    ((∃ k, progressTrace env = [0, 10, 25, 50, 75, 100].take k) ∨
     (∃ k, progressTrace env = [0, 10, 20, 50, 75, 100].take k)) ∧
    (100 ∈ progressTrace env ↔ (process_analysis env).final.status = "completed") ∧
    ((process_analysis env).final.progress = 100 ↔
      (process_analysis env).final.status = "completed") ∧
    ((process_analysis env).final.status = "completed" ∨
      (process_analysis env).final.status = "error") := by
  obtain ⟨cap, lay, vis, sug, rep⟩ := env
  simp only [progressTrace, process_analysis, processAfterCapture]
  rcases cap with e1 | shots <;> rcases lay with e2 | li <;> dsimp only <;> (repeat' split) <;>
    dsimp only [errorState] <;>
    first
      | exact ⟨by simp, Or.inl ⟨3, by decide⟩, by decide, by decide, by decide⟩
      | exact ⟨by simp, Or.inl ⟨4, by decide⟩, by decide, by decide, by decide⟩
      | exact ⟨by simp, Or.inl ⟨5, by decide⟩, by decide, by decide, by decide⟩
      | exact ⟨by simp, Or.inl ⟨6, by decide⟩, by decide, by decide, by decide⟩
      | exact ⟨by simp, Or.inr ⟨3, by decide⟩, by decide, by decide, by decide⟩
      | exact ⟨by simp, Or.inr ⟨4, by decide⟩, by decide, by decide, by decide⟩
      | exact ⟨by simp, Or.inr ⟨5, by decide⟩, by decide, by decide, by decide⟩
      | exact ⟨by simp, Or.inr ⟨6, by decide⟩, by decide, by decide, by decide⟩

/-- C7.  Any uncaught exception during orchestration ends the run with
status `error`, the exception's type and message recorded in both the
`message` and the `error` fields of the in-memory record, the remaining
stages not entered (the stage list actually run is a proper prefix of
the full sequence), and no persistence call made: the save only happens
on the success path. -/
theorem C7_error_path (env : Env)
    (h : (process_analysis env).final.status = "error") :
    (∃ e : Exn,
      (process_analysis env).final.message = "Erro na análise: " ++ e.str ∧
      (process_analysis env).final.error = some e.str) ∧
    (process_analysis env).saves = [] ∧
    (∃ k, k < stageList.length ∧ (process_analysis env).ran = stageList.take k) := by
  obtain ⟨cap, lay, vis, sug, rep⟩ := env
  revert h
  simp only [process_analysis, processAfterCapture]
  rcases cap with e1 | shots <;> rcases lay with e2 | li <;> dsimp only <;>
    (repeat' split) <;> dsimp only [errorState] <;> intro h <;>
    first
      | exact absurd h (by decide)
      | exact ⟨⟨_, rfl, rfl⟩, rfl, ⟨2, by decide, rfl⟩⟩
      | exact ⟨⟨_, rfl, rfl⟩, rfl, ⟨3, by decide, rfl⟩⟩
      | exact ⟨⟨_, rfl, rfl⟩, rfl, ⟨4, by decide, rfl⟩⟩
      | exact ⟨⟨_, rfl, rfl⟩, rfl, ⟨5, by decide, rfl⟩⟩

/-- A run whose layout stage raises, for the C7 witness. -/
def envLayoutError : Env :=
  { capture := .ok [], layout := .error exnBoom,
    vision := fun _ => .ok [], suggest := fun _ => .ok [], report := .ok {} }

/-- Witness for C7 at a concrete run whose layout stage raises. -/
theorem C7_error_path_witness :
    (∃ e : Exn,
      (process_analysis envLayoutError).final.message = "Erro na análise: " ++ e.str ∧
      (process_analysis envLayoutError).final.error = some e.str) ∧
    (process_analysis envLayoutError).saves = [] ∧
    (∃ k, k < stageList.length ∧
      (process_analysis envLayoutError).ran = stageList.take k) :=
  C7_error_path envLayoutError (by decide)

/-- C8.  When the capture stage fails outright, the orchestrator catches
the exception and substitutes the empty screenshot list; with every
other stage returning normally, the run still reaches status `completed`
with zero screenshots, the vision stage returns the empty issue list on
zero screenshots, and the final issues are exactly the heuristic
issues. -/
theorem C8_capture_failure_degraded (e : Exn) (p : Page) (venv : VisionEnv)
    (rd : ReportData) :
    (process_analysis
      { capture := .error e,
        layout := .ok (LayoutAnalysisTool.run (.ok p)),
        vision := fun shots => .ok (VisionAnalysisTool.run venv shots),
        suggest := fun iss => .ok (SuggestionGeneratorTool.run iss),
        report := .ok rd }).final.status = "completed" ∧
    (process_analysis
      { capture := .error e,
        layout := .ok (LayoutAnalysisTool.run (.ok p)),
        vision := fun shots => .ok (VisionAnalysisTool.run venv shots),
        suggest := fun iss => .ok (SuggestionGeneratorTool.run iss),
        report := .ok rd }).final.screenshots = [] ∧
    VisionAnalysisTool.run venv [] = [] ∧
    (process_analysis
      { capture := .error e,
        layout := .ok (LayoutAnalysisTool.run (.ok p)),
        vision := fun shots => .ok (VisionAnalysisTool.run venv shots),
        suggest := fun iss => .ok (SuggestionGeneratorTool.run iss),
        report := .ok rd }).final.issues = LayoutAnalysisTool.run (.ok p) := by
  refine ⟨rfl, rfl, rfl, ?_⟩
  show LayoutAnalysisTool.run (.ok p) ++ VisionAnalysisTool.run venv [] =
    LayoutAnalysisTool.run (.ok p)
  rw [show VisionAnalysisTool.run venv [] = [] from rfl, List.append_nil]

/-- `updateFirst` does not change the length of a list. -/
theorem updateFirst_length {α : Type} (l : List α) (p : α → Bool) (f : α → α) :
    (updateFirst l p f).length = l.length := by
  induction l with
  | nil => rfl
  | cons a t ih =>
    simp only [updateFirst]
    split <;> simp [ih]

/-- C10.  The success-path persistence writes only a single `analyses`
row, carrying the nested results as JSON blobs; it never inserts rows
into the `screenshots`, `issues` or `recommendations` tables, so for a
job identifier with no pre-existing rows — as holds for every pipeline
job, whose identifier is a fresh uuid — the screenshots endpoint
returns the empty list after the save. -/
theorem C10_persistence_single_row (db : DB) (analysis_id url status : String)
    (shots : Option (List ScreenshotDict)) (iss : Option (List IssueDict))
    (recs : Option (List RecDict)) (score : Option Scores)
    (summary : Option String) (error : Option String) :
    (DatabaseManager.save_analysis db analysis_id url status shots iss recs
        score summary error).screenshots = db.screenshots ∧
    (DatabaseManager.save_analysis db analysis_id url status shots iss recs
        score summary error).issues = db.issues ∧
    (DatabaseManager.save_analysis db analysis_id url status shots iss recs
        score summary error).recommendations = db.recommendations ∧
    ((DatabaseManager.save_analysis db analysis_id url status shots iss recs
        score summary error).analyses.length = db.analyses.length ∨
     (DatabaseManager.save_analysis db analysis_id url status shots iss recs
        score summary error).analyses.length = db.analyses.length + 1) ∧
    ((∀ a ∈ db.analyses, a.id ≠ analysis_id) →
     (∀ s ∈ db.screenshots, s.analysis_id ≠ analysis_id) →
      get_screenshots_endpoint
        (DatabaseManager.save_analysis db analysis_id url status shots iss recs
          score summary error) analysis_id = .ok []) := by
  cases hf : db.analyses.find? (fun a => a.id == analysis_id) with
  | some a =>
    have ha := List.mem_of_find?_eq_some hf
    have hid : a.id = analysis_id := by simpa using List.find?_some hf
    refine ⟨?_, ?_, ?_, ?_, ?_⟩
    · simp [DatabaseManager.save_analysis, hf]
    · simp [DatabaseManager.save_analysis, hf]
    · simp [DatabaseManager.save_analysis, hf]
    · exact Or.inl (by simp [DatabaseManager.save_analysis, hf, updateFirst_length])
    · intro h1 _
      exact absurd hid (h1 a ha)
  | none =>
    refine ⟨?_, ?_, ?_, ?_, ?_⟩
    · simp [DatabaseManager.save_analysis, hf]
    · simp [DatabaseManager.save_analysis, hf]
    · simp [DatabaseManager.save_analysis, hf]
    · exact Or.inr (by simp [DatabaseManager.save_analysis, hf])
    · intro h1 h2
      simp only [get_screenshots_endpoint, DatabaseManager.get_analysis,
        DatabaseManager.save_analysis, DatabaseManager.get_screenshots, hf]
      rw [List.find?_append, hf]
      rw [List.find?_cons_of_pos _ (by simp)]
      simp only [Option.none_or]
      rw [List.filter_eq_nil_iff.mpr (fun s hs => by simpa using h2 s hs)]
      rfl

/-- The empty database, for the C10 witness. -/
def emptyDB : DB :=
  { analyses := [], screenshots := [], issues := [], recommendations := [] }

/-- Witness for C10: saving a completed job into the empty database and
then querying its screenshots endpoint returns the empty list. -/
theorem C10_persistence_single_row_witness :
    get_screenshots_endpoint
      (DatabaseManager.save_analysis emptyDB "job-1" "http://example.com" "completed"
        (some []) (some []) (some [])
        (some { mobile := 100, tablet := 100, desktop := 100, overall := 100 })
        (some "") none) "job-1" = .ok [] :=
  (C10_persistence_single_row emptyDB "job-1" "http://example.com" "completed"
    (some []) (some []) (some [])
    (some { mobile := 100, tablet := 100, desktop := 100, overall := 100 })
    (some "") none).2.2.2.2
    (fun a ha => absurd ha (List.not_mem_nil a))
    (fun s hs => absurd hs (List.not_mem_nil s))
